import Mathlib

/-!
Shallow embedding of the order/discount workflow of an e-commerce backend
(an AdonisJS `OrderController` plus its persistence layer), together with
proofs about the workflow operations `index`, `store` (createOrder),
`update` (updateOrder), `applyDiscount` and `removeDiscount`.

Persisted rows (Order, OrderItem, Coupon, Discount) are plain structures;
the database is a `Store` record of row lists with a fresh-id counter.
JavaScript exceptions are values carrying a message and a stack string;
each controller method returns the next store state together with a
response value mirroring what the method sends.

The `OrderService` class (methods `syncItems`, `syncUpdateItems`,
`canApplyDiscount`) and the Lucid model definitions are not part of the
controller source; where their behaviour decides a property they are
modelled from the specification, and each such definition is marked
`Modelled from the spec:` in its doc comment.
-/

namespace ECom

/-- An `orders` row: integer id, owner, opaque status string, soft-delete
timestamp (`none` = active). -/
structure Order where
  id : Nat
  user_id : Nat
  status : String
  deleted_at : Option Nat
deriving DecidableEq, Repr

/-- An `order_items` row: belongs to one order, snapshots a product
reference and a quantity. -/
structure OrderItem where
  id : Nat
  order_id : Nat
  product : String
  qty : Nat
deriving DecidableEq, Repr

/-- A `coupons` row: unique upper-case code and the `recursive` stacking
flag. -/
structure Coupon where
  id : Nat
  code : String
  recursive : Bool
deriving DecidableEq, Repr

/-- A `discounts` row: join entity linking one order to one coupon, with
soft-delete timestamp. -/
structure Discount where
  id : Nat
  order_id : Nat
  coupon_id : Nat
  deleted_at : Option Nat
deriving DecidableEq, Repr

/-- The persistent database state. `nextId` supplies fresh primary keys. -/
structure Store where
  orders : List Order
  orderItems : List OrderItem
  coupons : List Coupon
  discounts : List Discount
  nextId : Nat
deriving DecidableEq, Repr

/-- A JavaScript exception value: `message` and the `stack` property that
the controller copies into error responses. -/
structure JsError where
  message : String
  stack : String
deriving DecidableEq, Repr

/-- Exception thrown by `findOrFail` / `findByOrFail` when no row matches. -/
def notFoundErr : JsError :=
  { message := "E_MISSING_DATABASE_ROW", stack := "ModelNotFoundException: E_MISSING_DATABASE_ROW at BaseModel.findOrFail" }

/-- Exception thrown at `applyDiscount` line 211: the identifier `orders`
is never declared in that method (the local is named `order`), and the file
is strict mode, so reading it raises a ReferenceError. -/
def refErrOrders : JsError :=
  { message := "orders is not defined", stack := "ReferenceError: orders is not defined at OrderController.applyDiscount" }

/-- Exception thrown inside the catch block of `update`: `trx` is declared
with `const` inside the try block, so the catch reads an undeclared
identifier. -/
def refErrTrx : JsError :=
  { message := "trx is not defined", stack := "ReferenceError: trx is not defined at OrderController.update" }

/-- Exception for an order-item insert whose required fields are absent. -/
def validationErr : JsError :=
  { message := "E_VALIDATION_FAILED", stack := "ValidationException: E_VALIDATION_FAILED at OrderService.syncItems" }

/-- The body every catch block sends: a fixed message plus `error.stack`. -/
structure ErrBody where
  message : String
  error : Option String
deriving DecidableEq, Repr

/-- Builds the catch-block body `message, error: error.stack`. -/
def errBody (msg : String) (e : JsError) : ErrBody :=
  { message := msg, error := some e.stack }

/-- The `info` object `applyDiscount` assembles before responding. -/
structure Info where
  message : String
  success : Bool
deriving DecidableEq, Repr

/-- Find an order row by primary key (`Order.findOrFail(id)` succeeds when
this is `some`). -/
def findOrder (s : Store) (oid : Nat) : Option Order :=
  s.orders.find? (fun o => o.id == oid)

/-- ASCII upper-casing of one character (JS `toUpperCase` restricted to
the ASCII range the coupon codes live in). -/
def asciiUpper (c : Char) : Char :=
  if 97 ≤ c.toNat ∧ c.toNat ≤ 122 then Char.ofNat (c.toNat - 32) else c

/-- ASCII lower-casing of one character. -/
def asciiLower (c : Char) : Char :=
  if 65 ≤ c.toNat ∧ c.toNat ≤ 90 then Char.ofNat (c.toNat + 32) else c

/-- JS `code.toUpperCase()` over the ASCII alphabet. -/
def jsToUpper (s : String) : String :=
  String.mk (s.data.map asciiUpper)

/-- Lower-casing used by the ILIKE comparison. -/
def jsToLower (s : String) : String :=
  String.mk (s.data.map asciiLower)

/-- Find a coupon row whose stored code equals the (already upper-cased)
lookup code: `Coupon.findByOrFail('code', code.toUpperCase())`. -/
def findCouponByCode (s : Store) (code : String) : Option Coupon :=
  s.coupons.find? (fun c => c.code == jsToUpper code)

/-- Modelled from the spec: `order.coupons().getCount()` counts through the
`discounts` pivot, and the Order model defining that relation is not in the
source; per the spec, `activeCount` is the number of non-deleted Discount
rows on the order. -/
def countActiveDiscounts (s : Store) (oid : Nat) : Nat :=
  (s.discounts.filter (fun d => d.order_id == oid && d.deleted_at == none)).length

/-- The stacking rule computed at `applyDiscount` lines 192-193:
`orderDiscounts < 1 || (orderDiscounts >= 1 && coupon.recursive)`. -/
def canApplyToOrder (orderDiscounts : Nat) (c : Coupon) : Bool :=
  orderDiscounts < 1 || (decide (orderDiscounts ≥ 1) && c.recursive)

/-- `Discount.findOrCreate(attrs)` with `attrs = (order_id, coupon_id)`:
returns the store unchanged when a row with those two fields already exists
(soft-deleted or not; the lookup clause names only the two fields),
otherwise appends a fresh active row. -/
def findOrCreateDiscount (s : Store) (oid cid : Nat) : Store :=
  if s.discounts.any (fun d => d.order_id == oid && d.coupon_id == cid) then s
  else
    { s with
      discounts := s.discounts ++ [{ id := s.nextId, order_id := oid, coupon_id := cid, deleted_at := none }]
      nextId := s.nextId + 1 }

/-- Response of `applyDiscount`. The 200 branch (`ok`) mirrors the
`return response.status(200).send(...)` line; it is unreachable because the
preceding statement reads the undeclared identifier `orders`. -/
inductive ApplyResp where
  | ok (order : Order) (info : Info)
  | err (b : ErrBody)
deriving DecidableEq, Repr

/-- `applyDiscount(orderId, code)`. The opaque eligibility predicate
`service.canApplyDiscount(coupon)` is a parameter `canApply` evaluated on
the loaded order and coupon. Control flow of the source: look up the coupon
by upper-cased code, look up the order (either failure lands in the catch),
evaluate `canAddDiscount && canApplyToOrder`; when allowed, run
`Discount.findOrCreate(order_id, coupon_id)` (no transaction, so the write
persists); then line 211 reads the undeclared `orders` and throws, so the
catch answers 400 with the ReferenceError stack in every resolving run. -/
def applyDiscount (canApply : Order → Coupon → Bool) (oid : Nat) (code : String)
    (s : Store) : Store × ApplyResp :=
  match findCouponByCode s code with
  | none => (s, .err (errBody "Error coupon clould not be apllied" notFoundErr))
  | some coupon =>
    match findOrder s oid with
    | none => (s, .err (errBody "Error coupon clould not be apllied" notFoundErr))
    | some order =>
      let canAddDiscount := canApply order coupon
      let orderDiscounts := countActiveDiscounts s oid
      let s' :=
        if canAddDiscount && canApplyToOrder orderDiscounts coupon then
          findOrCreateDiscount s order.id coupon.id
        else s
      (s', .err (errBody "Error coupon clould not be apllied" refErrOrders))

/-- Number of discount rows joining order `oid` to coupon `cid`. -/
def pairCount (s : Store) (oid cid : Nat) : Nat :=
  (s.discounts.filter (fun d => d.order_id == oid && d.coupon_id == cid)).length

/-- Number of active (non-deleted) discount rows joining `oid` to `cid`. -/
def activePairCount (s : Store) (oid cid : Nat) : Nat :=
  (s.discounts.filter
    (fun d => d.order_id == oid && d.coupon_id == cid && d.deleted_at == none)).length

/-- One entry of the `items` array of a create/update request; either field
may be absent in the raw payload. -/
structure ItemReq where
  product : Option String
  qty : Option Nat
deriving DecidableEq, Repr

/-- Payload of `POST /orders`: `request.all()` destructured into
`user_id, items, status`; `items` may be absent. -/
structure CreateReq where
  user_id : Nat
  status : String
  items : Option (List ItemReq)
deriving DecidableEq, Repr

/-- A request item is valid when both required fields are present. -/
def validItem (it : ItemReq) : Bool :=
  it.product.isSome && it.qty.isSome

/-- Modelled from the spec: one insert of `OrderService.syncItems` (the
service class is not in the source). Per the spec each item specifies a
product reference and a quantity at minimum, and a missing required field
fails with a validation error. The write goes to the caller-supplied
transaction state. -/
def insertItem (oid : Nat) (it : ItemReq) (s : Store) : Except JsError Store :=
  match it.product, it.qty with
  | some p, some q =>
    .ok { s with
          orderItems := s.orderItems ++ [{ id := s.nextId, order_id := oid, product := p, qty := q }]
          nextId := s.nextId + 1 }
  | _, _ => .error validationErr

/-- Modelled from the spec: `OrderService.syncItems(items)` inserts one
OrderItem per entry, in order, inside the caller's transaction. A mid-batch
failure returns the exception together with the partial transaction state
accumulated so far (those writes exist until the transaction decides their
fate). -/
def syncItems (oid : Nat) : List ItemReq → Store → Except (JsError × Store) Store
  | [], s => .ok s
  | it :: rest, s =>
    match insertItem oid it s with
    | .ok s' => syncItems oid rest s'
    | .error e => .error (e, s)

/-- `Order.create(attrs, trx)`: appends a fresh active order row inside the
transaction state and returns it. -/
def orderCreate (uid : Nat) (stat : String) (s : Store) : Store × Order :=
  let o : Order := { id := s.nextId, user_id := uid, status := stat, deleted_at := none }
  ({ s with orders := s.orders ++ [o], nextId := s.nextId + 1 }, o)

/-- The order items belonging to order `oid`. -/
def itemsOf (s : Store) (oid : Nat) : List OrderItem :=
  s.orderItems.filter (fun it => it.order_id == oid)

/-- Response of the `store` (createOrder) method: 201 with the hydrated
order, or the catch block body at 400. -/
inductive StoreResp where
  | created (o : Order) (items : List OrderItem)
  | err (b : ErrBody)
deriving DecidableEq, Repr

/-- The try-block writes of `store` (createOrder) inside the transaction:
`Order.create`, then `syncItems` when `items && items.length > 0`. The
transaction is the working copy of the store threaded through the writes;
the value is the state to commit, or the exception together with the
partial state accumulated when the batch failed mid-way. -/
def storeTrxBody (req : CreateReq) (s : Store) : Except (JsError × Store) Store :=
  let created := orderCreate req.user_id req.status s
  match req.items with
  | some its => if its.length > 0 then syncItems created.2.id its created.1 else .ok created.1
  | none => .ok created.1

/-- `store` (createOrder): opens a transaction, runs the try-block writes,
then commits; the 201 response carries the hydrated order with its items.
Any failure before the commit lands in the catch, which rolls the
transaction back — the published store is the pre-call store, partial
writes included in the discard — and answers the 400 catch body. -/
def store (req : CreateReq) (s : Store) : Store × StoreResp :=
  let o := (orderCreate req.user_id req.status s).2
  match storeTrxBody req s with
  | .ok trx2 => (trx2, .created o (itemsOf trx2 o.id))
  | .error (e, _partialTrx) => (s, .err (errBody "This request not performed" e))

/-- Payload of `PUT /orders/:id`: optional header patch plus optional
items list. -/
structure UpdateReq where
  user_id : Option Nat
  status : Option String
  items : Option (List ItemReq)
deriving DecidableEq, Repr

/-- The pairs (product, qty) of the valid entries of a request item list. -/
def targetPairs (items : List ItemReq) : List (String × Nat) :=
  items.filterMap (fun it =>
    match it.product, it.qty with
    | some p, some q => some (p, q)
    | _, _ => none)

/-- Modelled from the spec: `OrderService.syncUpdateItems(items)` (the
service class is not in the source) reconciles the existing OrderItems of
the order to exactly match the provided list: rows not in the list are
deleted, missing entries are inserted with fresh ids, entries already
present are left intact without duplication. -/
def syncUpdateItems (oid : Nat) (items : List ItemReq) (s : Store) : Store :=
  let target := targetPairs items
  let existing := (itemsOf s oid).map (fun r => (r.product, r.qty))
  let kept := s.orderItems.filter
    (fun r => r.order_id != oid || target.contains (r.product, r.qty))
  let toInsert := target.filter (fun pq => !(existing.contains pq))
  let inserted := toInsert.enum.map (fun (k, pq) =>
    ({ id := s.nextId + k, order_id := oid, product := pq.1, qty := pq.2 } : OrderItem))
  { s with orderItems := kept ++ inserted, nextId := s.nextId + toInsert.length }

/-- `order.save(trx)` after `order.merge(...)`: replaces the row with the
same id by the merged row. -/
def saveOrder (o : Order) (s : Store) : Store :=
  { s with orders := s.orders.map (fun r => if r.id == o.id then o else r) }

/-- Outcome of the `update` method. `ok` is the 200 path. `uncaught` is the
path where the try block threw (`primary`) and the catch block then itself
threw a ReferenceError reading the block-scoped `trx` (`secondary`): the
method produces no error response of its own and no rollback runs. -/
inductive UpdateResp where
  | ok (o : Order)
  | uncaught (primary secondary : JsError)
deriving DecidableEq, Repr

/-- `update` (updateOrder). The source calls
`service.syncUpdateItems(items)` WITHOUT `await` (line 129), so completion
of the reconciliation is not sequenced before `trx.commit()`; the parameter
`syncBeforeCommit` selects the schedule. When the un-awaited work has not
run by commit time its writes land on a committed transaction and are lost,
so the committed state omits them. On any failure in the try block the
catch reads the undeclared `trx` and throws a ReferenceError, so no
rollback and no error response happen. -/
def update (syncBeforeCommit : Bool) (oid : Nat) (req : UpdateReq) (s : Store) :
    Store × UpdateResp :=
  match findOrder s oid with
  | none => (s, .uncaught notFoundErr refErrTrx)
  | some o =>
    let merged : Order :=
      { o with
        user_id := req.user_id.getD o.user_id
        status := req.status.getD o.status }
    let trx1 :=
      match req.items with
      | some its => if syncBeforeCommit then syncUpdateItems oid its s else s
      | none => s
    let trx2 := saveOrder merged trx1
    (trx2, .ok merged)

/-- Modelled from the spec: `Discount.findOrFail(discount_id)` resolves
only live rows — the Discount model is not in the source, and the spec
records that removing an already-removed discount is treated as NotFound,
so the lookup excludes soft-deleted rows. -/
def findActiveDiscount (s : Store) (did : Nat) : Option Discount :=
  s.discounts.find? (fun d => d.id == did && d.deleted_at == none)

/-- Response of `removeDiscount`: 200 with the soft-deleted row, or the
catch body at 400. -/
inductive RemoveResp where
  | ok (d : Discount)
  | err (b : ErrBody)
deriving DecidableEq, Repr

/-- `removeDiscount(discount_id)`: find the live discount (catch answers
400 with the NotFound stack when it does not resolve), merge
`deleted_at = now` and save. -/
def removeDiscount (did now : Nat) (s : Store) : Store × RemoveResp :=
  match findActiveDiscount s did with
  | none => (s, .err (errBody "This request not performed" notFoundErr))
  | some d =>
    let d' : Discount := { d with deleted_at := some now }
    let s' : Store :=
      { s with discounts := s.discounts.map (fun r => if r.id == d.id then d' else r) }
    (s', .ok d')

/-- SQL LIKE matching over character lists: `%` matches any run, `_` any
single character, other characters match themselves. -/
def likeMatch : List Char → List Char → Bool
  | [], s => s.isEmpty
  | '%' :: ps, [] => likeMatch ps []
  | '%' :: ps, c :: t => likeMatch ps (c :: t) || likeMatch ('%' :: ps) t
  | _ :: _, [] => false
  | p :: ps, c :: t => (p == '_' || p == c) && likeMatch ps t
termination_by pat s => (pat.length, s.length)

/-- Case-insensitive LIKE (`ILIKE`): both sides lowered before matching. -/
def ilike (pat s : String) : Bool :=
  likeMatch (jsToLower pat).data (jsToLower s).data

/-- The filter of `index` (GET /orders). In the source: with both `status`
and `id` present (truthy) the query is
`where('status', status).orWhere('id', 'ILIKE', id)`; with one present
only that clause applies; with none the query is unfiltered. `none` stands
for an absent or falsy parameter. The id column is compared by ILIKE
against the pattern string. -/
def matchesIndexFilter (stat idPat : Option String) (o : Order) : Bool :=
  match stat, idPat with
  | some st, some pat => o.status == st || ilike pat (toString o.id)
  | some st, none => o.status == st
  | none, some pat => ilike pat (toString o.id)
  | none, none => true

/-- `index`: the rows the filtered query returns (pagination and
serialization are external collaborators). -/
def index (stat idPat : Option String) (s : Store) : List Order :=
  s.orders.filter (matchesIndexFilter stat idPat)

/-! ### Concrete fixtures used by witnesses and counterexamples -/

/-- A fresh pending order of user 5. -/
def wOrder : Order := { id := 1, user_id := 5, status := "pending", deleted_at := none }

/-- The non-recursive coupon SAVE10 of the spec scenario. -/
def wCoupon : Coupon := { id := 3, code := "SAVE10", recursive := false }

/-- Store holding `wOrder` and `wCoupon`, no items, no discounts. -/
def wStore : Store :=
  { orders := [wOrder], orderItems := [], coupons := [wCoupon], discounts := [], nextId := 10 }

/-- An active discount on order 1 for some other coupon (id 2). -/
def wDisc : Discount := { id := 8, order_id := 1, coupon_id := 2, deleted_at := none }

/-- `wStore` with one active discount already on order 1. -/
def wStoreD : Store := { wStore with discounts := [wDisc] }

/-- `wStore` with an active discount already linking order 1 to SAVE10. -/
def wStoreP : Store :=
  { wStore with discounts := [{ id := 8, order_id := 1, coupon_id := 3, deleted_at := none }] }

/-- A create request whose second item lacks its product reference, so the
item batch fails mid-way. -/
def wReqFail : CreateReq :=
  { user_id := 5, status := "pending",
    items := some [{ product := some "P1", qty := some 2 }, { product := none, qty := some 1 }] }

/-- `wStore` where order 1 already owns one order item. -/
def wStoreItems : Store :=
  { wStore with orderItems := [{ id := 7, order_id := 1, product := "P1", qty := 2 }] }

/-! ### Helper lemmas -/

/-- A zero pair count means the `findOrCreate` lookup clause matches no row. -/
lemma any_pair_eq_false_of_pairCount_zero {s : Store} {oid cid : Nat}
    (h : pairCount s oid cid = 0) :
    s.discounts.any (fun d => d.order_id == oid && d.coupon_id == cid) = false := by
  rw [pairCount, List.length_eq_zero, List.filter_eq_nil_iff] at h
  rw [List.any_eq_false]
  intro d hd
  exact h d hd

/-- A positive pair count means the `findOrCreate` lookup clause matches. -/
lemma any_pair_eq_true_of_pairCount_pos {s : Store} {oid cid : Nat}
    (h : 1 ≤ pairCount s oid cid) :
    s.discounts.any (fun d => d.order_id == oid && d.coupon_id == cid) = true := by
  rw [pairCount] at h
  rw [List.any_eq_true]
  rcases List.exists_mem_of_length_pos h with ⟨d, hd⟩
  have hd' := List.mem_filter.mp hd
  exact ⟨d, hd'.1, hd'.2⟩

/-- Creating the missing join row raises the pair count by one. -/
lemma pairCount_findOrCreate {s : Store} {oid cid : Nat}
    (h : s.discounts.any (fun d => d.order_id == oid && d.coupon_id == cid) = false) :
    pairCount (findOrCreateDiscount s oid cid) oid cid = pairCount s oid cid + 1 := by
  simp only [findOrCreateDiscount, h, Bool.false_eq_true, if_false, pairCount,
    List.filter_append, List.length_append]
  simp

/-- Active join rows are a sub-filter of all join rows for the pair. -/
lemma activePairCount_le_pairCount (s : Store) (oid cid : Nat) :
    activePairCount s oid cid ≤ pairCount s oid cid := by
  unfold activePairCount pairCount
  have h : (s.discounts.filter
        (fun d => d.order_id == oid && d.coupon_id == cid && d.deleted_at == none)) =
      ((s.discounts.filter (fun d => d.order_id == oid && d.coupon_id == cid)).filter
        (fun d => d.deleted_at == none)) := by
    rw [List.filter_filter]
    congr 1
    funext d
    generalize (d.order_id == oid) = a
    generalize (d.coupon_id == cid) = b
    generalize (d.deleted_at == none) = c
    cases a <;> cases b <;> cases c <;> rfl
  rw [h]
  exact List.length_filter_le _ _

/-- Without any join row for the pair there is no active join row either. -/
lemma activePairCount_zero_of_not_any {s : Store} {oid cid : Nat}
    (h : ¬ s.discounts.any (fun d => d.order_id == oid && d.coupon_id == cid) = true) :
    activePairCount s oid cid = 0 := by
  unfold activePairCount
  rw [List.length_eq_zero, List.filter_eq_nil_iff]
  intro d hd hp
  apply h
  rw [List.any_eq_true]
  refine ⟨d, hd, ?_⟩
  simp only [Bool.and_eq_true] at hp ⊢
  tauto

/-- Creating the missing join row adds exactly one active row for the pair. -/
lemma activePairCount_findOrCreate {s : Store} {oid cid : Nat}
    (h : s.discounts.any (fun d => d.order_id == oid && d.coupon_id == cid) = false) :
    activePairCount (findOrCreateDiscount s oid cid) oid cid =
      activePairCount s oid cid + 1 := by
  simp only [findOrCreateDiscount, h, Bool.false_eq_true, if_false, activePairCount,
    List.filter_append, List.length_append]
  simp

/-! ### Claims -/

/-- C1: for a resolving order and coupon, `applyDiscount` records a
Discount row for the pair iff the opaque eligibility predicate
(`canApplyDiscount`) holds AND the stacking rule holds, the stacking rule
being: allowed iff the active discount count is below one, or it is at
least one and the coupon is recursive; moreover for every active count
N ≥ 1 the stacking rule reduces exactly to the coupon's `recursive` flag
(non-recursive always rejected, recursive always allowed). -/
theorem applyDiscount_records_iff_policy (canApply : Order → Coupon → Bool)
    (oid : Nat) (code : String) (s : Store) (coupon : Coupon) (order : Order)
    (hc : findCouponByCode s code = some coupon)
    (ho : findOrder s oid = some order)
    (hfresh : pairCount s order.id coupon.id = 0) :
    (0 < pairCount (applyDiscount canApply oid code s).1 order.id coupon.id ↔
      canApply order coupon = true ∧
      canApplyToOrder (countActiveDiscounts s oid) coupon = true) ∧
    (∀ (n : Nat) (c : Coupon), 1 ≤ n → canApplyToOrder n c = c.recursive) := by
  constructor
  · simp only [applyDiscount, hc, ho]
    cases hcond : (canApply order coupon &&
        canApplyToOrder (countActiveDiscounts s oid) coupon) with
    | true =>
      rw [if_pos rfl]
      rw [pairCount_findOrCreate (any_pair_eq_false_of_pairCount_zero hfresh), hfresh]
      rw [Bool.and_eq_true] at hcond
      simp [hcond.1, hcond.2]
    | false =>
      rw [if_neg (by simp)]
      rw [hfresh]
      constructor
      · intro habs
        exact absurd habs (lt_irrefl 0)
      · rintro ⟨h1, h2⟩
        rw [h1, h2] at hcond
        simp at hcond
  · intro n c hn
    have h1 : ¬ (n < 1) := Nat.not_lt.mpr hn
    simp [canApplyToOrder, h1, hn]

/-- Witness for C1: the SAVE10 coupon applied to the fresh order 1 of
`wStore`, where eligibility holds and the active count is zero. -/
theorem applyDiscount_records_iff_policy_witness :
    (0 < pairCount (applyDiscount (fun _ _ => true) 1 "SAVE10" wStore).1 wOrder.id wCoupon.id ↔
      true = true ∧ canApplyToOrder (countActiveDiscounts wStore 1) wCoupon = true) ∧
    (∀ (n : Nat) (c : Coupon), 1 ≤ n → canApplyToOrder n c = c.recursive) :=
  applyDiscount_records_iff_policy (fun _ _ => true) 1 "SAVE10" wStore wCoupon wOrder
    (by decide) (by decide) (by decide)

/-- C2: `applyDiscount` never duplicates the join row: when a Discount row
for the resolved (order, coupon) pair already exists the store comes back
unchanged (the second application creates nothing), and a store carrying at
most one active Discount row for the pair still carries at most one
afterwards. -/
theorem applyDiscount_no_duplicate_active (canApply : Order → Coupon → Bool)
    (oid : Nat) (code : String) (s : Store) (coupon : Coupon) (order : Order)
    (hc : findCouponByCode s code = some coupon)
    (ho : findOrder s oid = some order) :
    (1 ≤ pairCount s order.id coupon.id → (applyDiscount canApply oid code s).1 = s) ∧
    (activePairCount s order.id coupon.id ≤ 1 →
      activePairCount (applyDiscount canApply oid code s).1 order.id coupon.id ≤ 1) := by
  constructor
  · intro h1
    have hany := any_pair_eq_true_of_pairCount_pos h1
    simp only [applyDiscount, hc, ho]
    split
    · unfold findOrCreateDiscount
      rw [if_pos hany]
    · rfl
  · intro hle
    simp only [applyDiscount, hc, ho]
    split
    · by_cases hany :
        s.discounts.any (fun d => d.order_id == order.id && d.coupon_id == coupon.id) = true
      · unfold findOrCreateDiscount
        rw [if_pos hany]
        exact hle
      · have h0 := activePairCount_zero_of_not_any hany
        have hfalse : (s.discounts.any
            (fun d => d.order_id == order.id && d.coupon_id == coupon.id)) = false := by
          simpa using hany
        rw [activePairCount_findOrCreate hfalse, h0]
    · exact hle

/-- Witness for C2: re-applying SAVE10 to order 1 of `wStoreP`, which
already holds the active Discount row linking them. -/
theorem applyDiscount_no_duplicate_active_witness :
    (applyDiscount (fun _ _ => true) 1 "SAVE10" wStoreP).1 = wStoreP ∧
    activePairCount (applyDiscount (fun _ _ => true) 1 "SAVE10" wStoreP).1
      wOrder.id wCoupon.id ≤ 1 :=
  ⟨(applyDiscount_no_duplicate_active (fun _ _ => true) 1 "SAVE10" wStoreP wCoupon wOrder
      (by decide) (by decide)).1 (by decide),
   (applyDiscount_no_duplicate_active (fun _ _ => true) 1 "SAVE10" wStoreP wCoupon wOrder
      (by decide) (by decide)).2 (by decide)⟩

/-- C3 (code bug): an order and coupon that resolve but fail the
eligibility check do NOT get the structured 200 rejection: after the
rejection info is computed, line 211 of the controller reads the
undeclared identifier `orders` (the local is `order`; the file is strict
mode), so the method lands in its catch block and answers the 400 error
body carrying the ReferenceError stack. Evaluated here on order 1 of
`wStoreD` (one active discount) and the non-recursive SAVE10 coupon; the
unchanged store confirms the rejection branch was the one taken. -/
theorem applyDiscount_rejection_hits_catch :
    applyDiscount (fun _ _ => true) 1 "SAVE10" wStoreD =
      (wStoreD, ApplyResp.err (errBody "Error coupon clould not be apllied" refErrOrders)) := by
  decide

/-- C4: `store` (createOrder) is atomic — whenever it answers the catch
body (any failure between opening the transaction and the commit,
including a mid-batch OrderItem insertion failure), the published store is
exactly the pre-call store: rollback discards the partial transaction
writes. -/
theorem store_rollback_atomic (req : CreateReq) (s : Store) (b : ErrBody)
    (h : (store req s).2 = .err b) : (store req s).1 = s := by
  simp only [store] at h ⊢
  cases hm : storeTrxBody req s with
  | ok trx2 =>
    rw [hm] at h
    simp at h
  | error p =>
    obtain ⟨e, st⟩ := p
    rfl

/-- Witness for C4: the create request whose second item has no product
reference fails mid-batch, and the store is left untouched. -/
theorem store_rollback_atomic_witness :
    (store wReqFail wStore).1 = wStore :=
  store_rollback_atomic wReqFail wStore
    (errBody "This request not performed" validationErr) (by decide)

/-- C5 (code bug): when `update` fails (here: the order id does not
resolve, so `findOrFail` throws), the catch block reads `trx` — declared
with `const` inside the try block, hence out of scope in the catch — and
itself throws a ReferenceError: no rollback runs and no error response is
produced, so the failure path does not complete. -/
theorem update_failure_path_throws :
    update true 99 { user_id := none, status := none, items := some [] } wStore =
      (wStore, UpdateResp.uncaught notFoundErr refErrTrx) := by
  decide

/-- C6 (code bug): `update` calls `service.syncUpdateItems(items)` without
`await` (line 129), so completion of the item reconciliation is not
sequenced before `trx.commit()`. Under the permitted schedule where the
un-awaited work has not landed by commit time, updating order 1 with an
empty items list leaves its prior OrderItem in place, whereas the awaited
schedule would leave zero items. -/
theorem update_unawaited_sync_not_before_commit :
    itemsOf (update false 1 { user_id := none, status := none, items := some [] }
        wStoreItems).1 1 =
      [{ id := 7, order_id := 1, product := "P1", qty := 2 }] ∧
    itemsOf (update true 1 { user_id := none, status := none, items := some [] }
        wStoreItems).1 1 = [] := by
  constructor <;> decide

/-- Successful `syncItems` appends exactly one OrderItem per request
entry — all owned by the target order, products and quantities in request
order — and touches no other field of the transaction state. -/
lemma syncItems_ok (oid : Nat) (items : List ItemReq) :
    ∀ (s : Store), (∀ it ∈ items, validItem it = true) →
    ∃ rows,
      syncItems oid items s =
        .ok { s with orderItems := s.orderItems ++ rows, nextId := s.nextId + rows.length } ∧
      (∀ r ∈ rows, r.order_id = oid) ∧
      rows.map (fun r => (r.product, r.qty)) =
        items.map (fun it => (it.product.getD "", it.qty.getD 0)) := by
  induction items with
  | nil =>
    intro s _
    exact ⟨[], by simp [syncItems], by simp, by simp⟩
  | cons it rest ih =>
    intro s hv
    have hvit := hv it (List.mem_cons_self it rest)
    rw [validItem, Bool.and_eq_true] at hvit
    obtain ⟨hps, hqs⟩ := hvit
    obtain ⟨p, hp⟩ := Option.isSome_iff_exists.mp hps
    obtain ⟨q, hq⟩ := Option.isSome_iff_exists.mp hqs
    obtain ⟨rows', h2, hown', hmap'⟩ := ih
      { s with
        orderItems := s.orderItems ++ [{ id := s.nextId, order_id := oid, product := p, qty := q }]
        nextId := s.nextId + 1 }
      (fun it' h' => hv it' (List.mem_cons_of_mem _ h'))
    refine ⟨{ id := s.nextId, order_id := oid, product := p, qty := q } :: rows', ?_, ?_, ?_⟩
    · have hstep : syncItems oid (it :: rest) s =
          syncItems oid rest
            { s with
              orderItems := s.orderItems ++ [{ id := s.nextId, order_id := oid, product := p, qty := q }]
              nextId := s.nextId + 1 } := by
        simp [syncItems, insertItem, hp, hq]
      rw [hstep, h2]
      congr 1
      simp [List.append_assoc]
      omega
    · intro r hr
      rcases List.mem_cons.mp hr with h | h
      · rw [h]
      · exact hown' r h
    · simp [hp, hq, hmap']

/-- C7: a successful `store` (createOrder) inserts exactly one Order row
carrying the requested user and status, and exactly one OrderItem per
entry of `items` (products and quantities as requested, in order); with
`items` absent the call still succeeds and the new order owns zero
OrderItems. -/
theorem store_success_rows (uid : Nat) (stat : String) (items : List ItemReq) (s : Store)
    (hv : ∀ it ∈ items, validItem it = true)
    (hfresh : ∀ it ∈ s.orderItems, it.order_id ≠ s.nextId) :
    ((store { user_id := uid, status := stat, items := some items } s).1.orders =
        s.orders ++ [{ id := s.nextId, user_id := uid, status := stat, deleted_at := none }]) ∧
    ((itemsOf (store { user_id := uid, status := stat, items := some items } s).1 s.nextId).map
        (fun r => (r.product, r.qty)) =
      items.map (fun it => (it.product.getD "", it.qty.getD 0))) ∧
    ((store { user_id := uid, status := stat, items := some items } s).2 =
      .created { id := s.nextId, user_id := uid, status := stat, deleted_at := none }
        (itemsOf (store { user_id := uid, status := stat, items := some items } s).1 s.nextId)) ∧
    ((store { user_id := uid, status := stat, items := none } s).1.orders =
        s.orders ++ [{ id := s.nextId, user_id := uid, status := stat, deleted_at := none }]) ∧
    ((store { user_id := uid, status := stat, items := none } s).1.orderItems = s.orderItems) ∧
    ((store { user_id := uid, status := stat, items := none } s).2 =
      .created { id := s.nextId, user_id := uid, status := stat, deleted_at := none } []) := by
  have hold : s.orderItems.filter (fun it => it.order_id == s.nextId) = [] := by
    rw [List.filter_eq_nil_iff]
    intro it hit
    simpa using hfresh it hit
  cases items with
  | nil =>
    refine ⟨?_, ?_, ?_, ?_, ?_, ?_⟩ <;>
      simp [store, storeTrxBody, orderCreate, itemsOf, hold]
  | cons it rest =>
    obtain ⟨rows, h2, hown, hmap⟩ :=
      syncItems_ok s.nextId (it :: rest)
        { s with
          orders := s.orders ++
            [{ id := s.nextId, user_id := uid, status := stat, deleted_at := none }]
          nextId := s.nextId + 1 } hv
    have hkeep : rows.filter (fun r => r.order_id == s.nextId) = rows := by
      rw [List.filter_eq_self]
      intro r hr
      simp [hown r hr]
    refine ⟨?_, ?_, ?_, ?_, ?_, ?_⟩ <;>
      simp [store, storeTrxBody, orderCreate, itemsOf, h2, List.filter_append, hold,
        hkeep, hmap]

/-- The single request item of the C7 scenario: product P1, quantity 2. -/
def wItemP1 : ItemReq := { product := some "P1", qty := some 2 }

/-- The C7 scenario create request with its one item. -/
def wReqP1 : CreateReq := { user_id := 5, status := "pending", items := some [wItemP1] }

/-- The C7 scenario create request without an items array. -/
def wReqNoItems : CreateReq := { user_id := 5, status := "pending", items := none }

/-- The order row the C7 scenario creates. -/
def wNewOrder : Order :=
  { id := wStore.nextId, user_id := 5, status := "pending", deleted_at := none }

/-- Witness for C7: the spec scenario — user 5, status pending, one item
P1 with quantity 2 — run on `wStore`. -/
theorem store_success_rows_witness :
    ((store wReqP1 wStore).1.orders = wStore.orders ++ [wNewOrder]) ∧
    ((itemsOf (store wReqP1 wStore).1 wStore.nextId).map (fun r => (r.product, r.qty)) =
      [wItemP1].map (fun it => (it.product.getD "", it.qty.getD 0))) ∧
    ((store wReqP1 wStore).2 =
      .created wNewOrder (itemsOf (store wReqP1 wStore).1 wStore.nextId)) ∧
    ((store wReqNoItems wStore).1.orders = wStore.orders ++ [wNewOrder]) ∧
    ((store wReqNoItems wStore).1.orderItems = wStore.orderItems) ∧
    ((store wReqNoItems wStore).2 = .created wNewOrder []) :=
  store_success_rows 5 "pending" [wItemP1] wStore (by decide) (by decide)

/-- C8: `removeDiscount` soft-deletes the targeted Discount by setting its
`deleted_at` timestamp; it answers the NotFound catch body when the id
does not resolve to a live Discount; and it is not idempotent — after a
successful removal the id no longer resolves, so a second removal answers
NotFound as well. -/
theorem removeDiscount_soft_delete_notfound (s : Store) (did now now2 : Nat) :
    (findActiveDiscount s did = none →
      removeDiscount did now s =
        (s, .err (errBody "This request not performed" notFoundErr))) ∧
    (∀ d, findActiveDiscount s did = some d →
      (removeDiscount did now s).2 = .ok { d with deleted_at := some now } ∧
      (∀ r ∈ (removeDiscount did now s).1.discounts, r.id = did → r.deleted_at = some now) ∧
      (removeDiscount did now2 (removeDiscount did now s).1).2 =
        .err (errBody "This request not performed" notFoundErr)) := by
  constructor
  · intro h
    simp [removeDiscount, h]
  · intro d hd
    have hdid : d.id = did := by
      have hp := List.find?_some hd
      simp only [Bool.and_eq_true, beq_iff_eq] at hp
      exact hp.1
    have hmem : ∀ r ∈ (removeDiscount did now s).1.discounts,
        r.id = did → r.deleted_at = some now := by
      intro r hr hrid
      simp only [removeDiscount, hd] at hr
      rw [List.mem_map] at hr
      obtain ⟨x, hx, hxr⟩ := hr
      by_cases hxid : (x.id == d.id) = true
      · rw [if_pos hxid] at hxr
        rw [← hxr]
      · rw [if_neg hxid] at hxr
        exfalso
        apply hxid
        rw [beq_iff_eq, hxr, hrid, hdid]
    refine ⟨by simp [removeDiscount, hd], hmem, ?_⟩
    have hnone : findActiveDiscount (removeDiscount did now s).1 did = none := by
      rw [findActiveDiscount, List.find?_eq_none]
      intro r hr hpred
      simp only [Bool.and_eq_true, beq_iff_eq] at hpred
      have := hmem r (by simpa [removeDiscount, hd] using hr) hpred.1
      rw [this] at hpred
      simp at hpred
    generalize hS : (removeDiscount did now s).1 = S at hnone
    simp [removeDiscount, hnone]

/-- Witness for C8: removal of the live discount 8 of `wStoreD`, repeated
removal of the same id, and removal of the unknown id 99. -/
theorem removeDiscount_soft_delete_notfound_witness :
    (removeDiscount 99 0 wStoreD =
      (wStoreD, RemoveResp.err (errBody "This request not performed" notFoundErr))) ∧
    ((removeDiscount 8 42 wStoreD).2 = .ok { wDisc with deleted_at := some 42 }) ∧
    ((removeDiscount 8 43 (removeDiscount 8 42 wStoreD).1).2 =
      RemoveResp.err (errBody "This request not performed" notFoundErr)) :=
  ⟨(removeDiscount_soft_delete_notfound wStoreD 99 0 0).1 (by decide),
   ((removeDiscount_soft_delete_notfound wStoreD 8 42 43).2 wDisc (by decide)).1,
   ((removeDiscount_soft_delete_notfound wStoreD 8 42 43).2 wDisc (by decide)).2.2⟩

/-- The only exception `syncItems` ever raises is the validation error of
a request item with a missing required field. -/
lemma syncItems_error_validation (oid : Nat) (items : List ItemReq) :
    ∀ (s t : Store) (e : JsError), syncItems oid items s = .error (e, t) →
      e = validationErr := by
  induction items with
  | nil =>
    intro s t e h
    simp [syncItems] at h
  | cons it rest ih =>
    intro s t e h
    rw [syncItems] at h
    cases hins : insertItem oid it s with
    | ok s2 =>
      rw [hins] at h
      exact ih s2 t e h
    | error e2 =>
      rw [hins] at h
      have he2 : e2 = validationErr := by
        rw [insertItem] at hins
        cases hp : it.product with
        | none => rw [hp] at hins; cases hq : it.qty <;> rw [hq] at hins <;>
            simpa using hins.symm
        | some p =>
          cases hq : it.qty with
          | none => rw [hp, hq] at hins; simpa using hins.symm
          | some q => rw [hp, hq] at hins; simp at hins
      simp only [Except.error.injEq, Prod.mk.injEq] at h
      rw [← h.1, he2]

/-- C9 counterexample: at the concrete failing input — `removeDiscount`
with discount_id 99 on `wStore`, where no such discount exists — the
caller-facing error result carries the internal stack trace of the thrown
exception in its `error` field, contradicting the claim that the result
never contains the stack trace. -/
theorem error_result_contains_stack_cex :
    (removeDiscount 99 0 wStore).2 =
      RemoveResp.err { message := "This request not performed",
                       error := some notFoundErr.stack } := by
  decide

/-- C9 amended: whenever an operation of the workflow produces an
error result, that result carries a fixed message together with the stack
trace of the underlying exception in its `error` field (`update` produces
no error result at all, its catch block itself throwing). -/
theorem error_responses_carry_stack (canApply : Order → Coupon → Bool)
    (req : CreateReq) (oid did now : Nat) (code : String) (s : Store) :
    (∀ b, (store req s).2 = .err b →
      b.message = "This request not performed" ∧ b.error = some validationErr.stack) ∧
    (∀ b, (applyDiscount canApply oid code s).2 = .err b →
      b.message = "Error coupon clould not be apllied" ∧
      (b.error = some notFoundErr.stack ∨ b.error = some refErrOrders.stack)) ∧
    (∀ b, (removeDiscount did now s).2 = .err b →
      b.message = "This request not performed" ∧ b.error = some notFoundErr.stack) := by
  refine ⟨?_, ?_, ?_⟩
  · intro b hb
    simp only [store] at hb
    cases hm : storeTrxBody req s with
    | ok trx2 =>
      rw [hm] at hb
      simp at hb
    | error p =>
      obtain ⟨e, t⟩ := p
      rw [hm] at hb
      have he : e = validationErr := by
        rw [storeTrxBody] at hm
        cases hits : req.items with
        | none => rw [hits] at hm; simp at hm
        | some its =>
          rw [hits] at hm
          dsimp only at hm
          by_cases hlen : its.length > 0
          · rw [if_pos hlen] at hm
            exact syncItems_error_validation _ its _ t e hm
          · rw [if_neg hlen] at hm
            simp at hm
      injection hb with h1
      rw [← h1, he]
      exact ⟨rfl, rfl⟩
  · intro b hb
    simp only [applyDiscount] at hb
    cases hc : findCouponByCode s code with
    | none =>
      rw [hc] at hb
      dsimp only at hb
      injection hb with h1
      rw [← h1]
      exact ⟨rfl, Or.inl rfl⟩
    | some coupon =>
      rw [hc] at hb
      dsimp only at hb
      cases ho : findOrder s oid with
      | none =>
        rw [ho] at hb
        dsimp only at hb
        injection hb with h1
        rw [← h1]
        exact ⟨rfl, Or.inl rfl⟩
      | some order =>
        rw [ho] at hb
        dsimp only at hb
        injection hb with h1
        rw [← h1]
        exact ⟨rfl, Or.inr rfl⟩
  · intro b hb
    simp only [removeDiscount] at hb
    cases hf : findActiveDiscount s did with
    | none =>
      rw [hf] at hb
      dsimp only at hb
      injection hb with h1
      rw [← h1]
      exact ⟨rfl, rfl⟩
    | some d =>
      rw [hf] at hb
      dsimp only at hb
      simp at hb

/-- Witness for C9 amended: concrete failing runs of the three operations
that produce error results. -/
theorem error_responses_carry_stack_witness :
    ((errBody "This request not performed" validationErr).message =
        "This request not performed" ∧
      (errBody "This request not performed" validationErr).error =
        some validationErr.stack) ∧
    ((errBody "Error coupon clould not be apllied" refErrOrders).message =
        "Error coupon clould not be apllied" ∧
      ((errBody "Error coupon clould not be apllied" refErrOrders).error =
          some notFoundErr.stack ∨
        (errBody "Error coupon clould not be apllied" refErrOrders).error =
          some refErrOrders.stack)) ∧
    ((errBody "This request not performed" notFoundErr).message =
        "This request not performed" ∧
      (errBody "This request not performed" notFoundErr).error =
        some notFoundErr.stack) :=
  ⟨(error_responses_carry_stack (fun _ _ => true) wReqFail 1 99 0 "SAVE10" wStore).1
      (errBody "This request not performed" validationErr) (by decide),
   (error_responses_carry_stack (fun _ _ => true) wReqFail 1 99 0 "SAVE10" wStore).2.1
      (errBody "Error coupon clould not be apllied" refErrOrders) (by decide),
   (error_responses_carry_stack (fun _ _ => true) wReqFail 1 99 0 "SAVE10" wStore).2.2
      (errBody "This request not performed" notFoundErr) (by decide)⟩

/-- C10: the order-listing filter combines its two parameters as a union —
with both a status and an id pattern supplied an order is returned iff its
status equals the given status OR its id matches the pattern under
case-insensitive LIKE; with only one filter supplied only that filter
applies; with neither, every order is returned. -/
theorem index_filters_union (st pat : String) (s : Store) (o : Order) :
    (o ∈ index (some st) (some pat) s ↔
      o ∈ s.orders ∧ (o.status = st ∨ ilike pat (toString o.id) = true)) ∧
    (o ∈ index (some st) none s ↔ o ∈ s.orders ∧ o.status = st) ∧
    (o ∈ index none (some pat) s ↔ o ∈ s.orders ∧ ilike pat (toString o.id) = true) ∧
    index none none s = s.orders := by
  refine ⟨?_, ?_, ?_, ?_⟩ <;>
    simp [index, matchesIndexFilter, List.mem_filter, Bool.or_eq_true, beq_iff_eq,
      List.filter_true]

end ECom
